import Mathlib

/-!
Shallow embedding of the Proxy_JA4 project (trust-bootstrap scripts and the
differential proxy test driver) together with proofs about the behaviour of
the embedded operations.

Sources embedded here:
  * tests/install_proxy_cas.py : CA generation, PEM validation, trust-store
    install, readiness polling, automatic-mode installer.
  * scripts/capture.py : packet-capture session start / stop / retrieve.
  * tests/test_all_proxies.py : the proxy test matrix, report and exit code.

Effectful Python code is modelled by explicit state passing: a `St` value
carries the local filesystem (a map from path to optional file content plus a
directory-existence predicate), the append-only log, and an instrumentation
trace of externally visible events (trust-store refresh invocations, install
attempts, capture-retrieve attempts).  External processes (the cryptography
library, curl, docker, the capture agent) are modelled by oracle parameters.
-/

set_option maxRecDepth 10000

/-- Python str.strip() whitespace set (ASCII subset used by the scripts). -/
def isPyWhitespace (c : Char) : Bool :=
  c = ' ' || c = '\t' || c = '\n' || c = '\r' || c = '\x0b' || c = '\x0c'

/-- Python str.strip() on the underlying character list: drop whitespace from
both ends. -/
def pyStripList (l : List Char) : List Char :=
  ((l.dropWhile isPyWhitespace).reverse.dropWhile isPyWhitespace).reverse

/-- Python str.strip(): remove leading and trailing whitespace. -/
def pyStrip (s : String) : String :=
  String.mk (pyStripList s.data)

theorem dropWhile_ws_cons (c : Char) (l : List Char)
    (h : isPyWhitespace c = false) :
    List.dropWhile isPyWhitespace (c :: l) = c :: l := by
  simp [List.dropWhile, h]

theorem pyStripList_eq_self (l : List Char)
    (h1 : l.dropWhile isPyWhitespace = l)
    (h2 : l.reverse.dropWhile isPyWhitespace = l.reverse) :
    pyStripList l = l := by
  unfold pyStripList
  rw [h1, h2, List.reverse_reverse]

/-- A capture file name of the shape produced for outputName "auto" is left
unchanged by Python str.strip(): it starts with a letter and ends with a
letter regardless of the timestamp in the middle. -/
theorem pyStrip_capture_name (now : String) :
    pyStrip ("capture_" ++ now ++ ".pcap") = "capture_" ++ now ++ ".pcap" := by
  have hdata : ("capture_" ++ now ++ ".pcap").data
      = 'c' :: (['a', 'p', 't', 'u', 'r', 'e', '_'] ++ (now.data ++ ['.', 'p', 'c', 'a', 'p'])) := by
    cases now with
    | mk d => rfl
  show String.mk (pyStripList ("capture_" ++ now ++ ".pcap").data) = _
  rw [hdata]
  rw [pyStripList_eq_self]
  · cases now with
    | mk d => rfl
  · exact dropWhile_ws_cons _ _ (by decide)
  · have : ('c' :: (['a', 'p', 't', 'u', 'r', 'e', '_'] ++ (now.data ++ ['.', 'p', 'c', 'a', 'p']))).reverse
        = 'p' :: (['a', 'c', 'p', '.'] ++ (now.data.reverse ++ ['_', 'e', 'r', 'u', 't', 'p', 'a', 'c'])) := by
      simp
    rw [this]
    exact dropWhile_ws_cons _ _ (by decide)

/-! ## State model: local filesystem, log, instrumentation events -/

/-- Local filesystem: optional content for each file path, plus which
directories exist. -/
structure FS where
  files : String → Option String
  dirs : String → Bool

/-- Externally visible events recorded by the instrumented embedding:
an install_ca call finishing with a result, an invocation of the OS
trust-store rebuild (update-ca-certificates), and a capture-retrieve
(docker cp) attempt for a named pcap file. -/
inductive Event where
  | installAttempt (src : String) (ok : Bool)
  | refreshTrust
  | copyAttempt (pcapName : String)
deriving DecidableEq

/-- Process state threaded through the embedded scripts. -/
structure St where
  fs : FS
  log : List String
  events : List Event

/-- log(msg): append a timestamped line to the component log file.  The
timestamp prefix is immaterial to every claim and is omitted. -/
def logMsg (msg : String) (st : St) : St :=
  { st with log := st.log ++ [msg] }

/-- Write content to a file path (open(..., w) followed by write). -/
def writeFile (p v : String) (st : St) : St :=
  { st with fs := { st.fs with files := fun q => if q = p then some v else st.fs.files q } }

/-- os.makedirs: create a directory. -/
def makeDir (p : String) (st : St) : St :=
  { st with fs := { st.fs with dirs := fun q => if q = p then true else st.fs.dirs q } }

/-- Record an instrumentation event. -/
def emit (e : Event) (st : St) : St :=
  { st with events := st.events ++ [e] }

/-- An empty starting state: no files, no directories, empty log. -/
def stEmpty : St :=
  { fs := { files := fun _ => none, dirs := fun _ => false }, log := [], events := [] }

/-! ## tests/install_proxy_cas.py -/

/-- Absolute project root computed by the script from its own location;
abstracted to a fixed absolute path. -/
def PROJECT_ROOT : String := "/project"

def SHARED_CA_DIR : String := PROJECT_ROOT ++ "/configs/squid/runtime"

def CA_KEY : String := SHARED_CA_DIR ++ "/proxy-ca.key.pem"

def CA_CERT : String := SHARED_CA_DIR ++ "/proxy-ca.cert.pem"

def squid_conf_path : String :=
  PROJECT_ROOT ++ "/configs/squid/runtime/squid_no_ssl.conf"

/-- Default squid configuration content written by
ensure_directories_and_files (abbreviated: its exact text is immaterial). -/
def squid_conf_content : String :=
  "http_port 3128\nhttp_access allow all\n"

def directories_to_create : List String :=
  [SHARED_CA_DIR,
   PROJECT_ROOT ++ "/configs/squid/runtime",
   PROJECT_ROOT ++ "/configs/mitmproxy/runtime",
   PROJECT_ROOT ++ "/logs",
   PROJECT_ROOT ++ "/captures"]

/-- ensure_directories_and_files: create each missing directory, then create
the squid configuration file if absent.  Directory creation and the file
write are modelled as succeeding (the exception branches of the source only
log and return False and are not reachable in this model). -/
def create_dir_step (s : St) (d : String) : St :=
  if s.fs.dirs d then s
  else logMsg ("Created directory: " ++ d) (makeDir d s)

/-- ensure_directories_and_files: create each missing directory, then create
the squid configuration file if absent. -/
def ensure_directories_and_files (st : St) : Bool × St :=
  let st := directories_to_create.foldl create_dir_step st
  let st :=
    if (st.fs.files squid_conf_path).isSome then st
    else logMsg ("Created squid configuration file: " ++ squid_conf_path)
           (writeFile squid_conf_path squid_conf_content st)
  (true, st)

/-- generate_ca: ensure directories, then generate and write a new CA key
and certificate only when one of the two files is missing.  `genOk` models
whether the cryptography calls succeed (the except branch logs and writes
nothing); `keyPem` and `certPem` are the PEM bytes the library would
produce. -/
def generate_ca (genOk : Bool) (keyPem certPem : String) (st : St) : St :=
  let p := ensure_directories_and_files st
  if !p.1 then
    logMsg ("ERROR: Failed to create necessary directories and files") p.2
  else if !((p.2.fs.files CA_KEY).isSome && (p.2.fs.files CA_CERT).isSome) then
    let st := logMsg ("Generating new CA key and certificate using cryptography...") p.2
    if genOk then
      let st := writeFile CA_KEY keyPem st
      let st := writeFile CA_CERT certPem st
      let st := logMsg ("Generated CA key: " ++ CA_KEY) st
      logMsg ("Generated CA cert: " ++ CA_CERT) st
    else
      logMsg ("ERROR: Failed to generate CA key/cert: <exception>") st
  else
    logMsg ("CA key and certificate already exist.") p.2

/-- install_ca(src, dst_name): if the source file exists, ensure the trust
directory exists, copy the file under dst_name, log and return True;
otherwise log that the candidate was not found and return False.  Each call
records an installAttempt event carrying its boolean result. -/
def install_ca (src dst_name : String) (st : St) : Bool × St :=
  if (st.fs.files src).isSome then
    let dst_dir := "/usr/local/share/ca-certificates"
    let st := if st.fs.dirs dst_dir then st else makeDir dst_dir st
    let dst := dst_dir ++ "/" ++ dst_name
    let st :=
      match st.fs.files src with
      | some v => writeFile dst v st
      | none => st
    let st := logMsg ("Copied " ++ src ++ " to " ++ dst) st
    (true, emit (Event.installAttempt src true) st)
  else
    let st := logMsg ("CA candidate not found: " ++ src) st
    (false, emit (Event.installAttempt src false) st)

/-- is_valid_pem_cert: False when the file is missing or its content strips
to empty; otherwise the result of parsing it as a PEM X.509 certificate.
`parses` is the oracle for x509.load_pem_x509_certificate succeeding; a parse
exception is logged and yields False (never raises). -/
def is_valid_pem_cert (parses : String → Bool) (cert_path : String) (st : St) :
    Bool × St :=
  match st.fs.files cert_path with
  | none => (false, st)
  | some data =>
    if pyStrip data = "" then (false, st)
    else if parses data then (true, st)
    else (false, logMsg ("PEM certificate validation failed for " ++ cert_path) st)

/-- wait_for_file loop body.  `ex t` tells whether the file exists `t`
seconds after the loop started; each poll sleeps 2 seconds.  The first
argument is structural fuel: the wrapper passes max_wait + 2, which is shown
below (wait_for_file_fuel_irrel) to be beyond the number of iterations the
loop can perform, so the fuel-exhaustion branch is unreachable and the
function agrees with the unbounded while loop of the source. -/
def wait_for_file_loop (ex : Nat → Bool) (max_wait : Nat) :
    Nat → Nat → Bool × Nat
  | 0, elapsed => (false, elapsed)
  | gas + 1, elapsed =>
    if ex elapsed then (true, elapsed)
    else if elapsed > max_wait then (false, elapsed)
    else wait_for_file_loop ex max_wait gas (elapsed + 2)

/-- wait_for_file(path, max_wait): returns the final verdict together with
the elapsed time at which the loop returned. -/
def wait_for_file_run (ex : Nat → Bool) (max_wait : Nat) : Bool × Nat :=
  wait_for_file_loop ex max_wait (max_wait + 2) 0

/-- wait_for_file(path, max_wait) -> bool. -/
def wait_for_file (ex : Nat → Bool) (max_wait : Nat) : Bool :=
  (wait_for_file_run ex max_wait).1

/-- auto_install_all_cas: wait for each sibling-produced CA file and install
it, then rebuild the OS trust store whenever the platform is Linux.  The
filesystem is static during the run (no concurrent writers are modelled), so
the existence predicate handed to wait_for_file is constant in time.  The
internal logging of wait_for_file is externalized to the caller; the
trust-store rebuild subprocess is modelled as succeeding and records a
refreshTrust event at its invocation. -/
def auto_install_all_cas (platformSystem : String) (st : St) : St :=
  let st := logMsg ("Starting automatic CA certificate installation...") st
  let mitm_ca_path := "/mitm_ca/mitmproxy-ca-cert.pem"
  let st :=
    if wait_for_file (fun _ => (st.fs.files mitm_ca_path).isSome) 60 then
      let p := install_ca mitm_ca_path "mitmproxy-ca.crt" st
      if p.1 then logMsg ("mitmproxy CA certificate installed successfully") p.2
      else logMsg ("Failed to install mitmproxy CA certificate") p.2
    else logMsg ("mitmproxy CA certificate not found within timeout") st
  let squid_ca_path := "/shared_ca_cert.pem"
  let st :=
    if wait_for_file (fun _ => (st.fs.files squid_ca_path).isSome) 60 then
      let p := install_ca squid_ca_path "squid-ca.crt" st
      if p.1 then logMsg ("Squid CA certificate installed successfully") p.2
      else logMsg ("Failed to install Squid CA certificate") p.2
    else logMsg ("Squid CA certificate not found within timeout") st
  let st :=
    if platformSystem = "Linux" then
      logMsg ("CA certificates updated successfully") (emit Event.refreshTrust st)
    else st
  logMsg ("Automatic CA installation complete!") st

/-- Module-level install step (Step 2 of the script): on Linux, install the
generated CA certificate and rebuild the trust store only when that install
returned True; on other systems only log. -/
def module_install_step (platformSystem : String) (st : St) : St :=
  if platformSystem = "Linux" then
    let p := install_ca CA_CERT "proxy-ja4-ca.crt" st
    if p.1 then
      logMsg ("CA certificates updated.") (emit Event.refreshTrust p.2)
    else
      logMsg ("No CA certificate found to install.") p.2
  else
    logMsg ("Skipping CA installation on Windows. This will be handled in the container.") st

/-- Decides, over an event trace, the property that every trust-store
rebuild is preceded by at least one install attempt that returned true.
Stated from the specification wording for comparison with the traces the
embedded code produces. -/
def refresh_only_after_success (evs : List Event) : Bool :=
  (evs.foldl
    (fun (acc : Bool × Bool) e =>
      match e with
      | Event.installAttempt _ true => (true, acc.2)
      | Event.refreshTrust => (acc.1, acc.2 && acc.1)
      | _ => acc)
    (false, true)).2

/-! ## scripts/capture.py -/

def CAPTURES_DIR : String := "./captures"

def current_capture_file : String := CAPTURES_DIR ++ "/.current_capture"

/-- Oracles for the external processes capture.py drives through docker:
whether the capture container is running, whether tcpdump is present or
installable, the detached tcpdump launch, pkill, and docker cp per pcap
name (with the bytes the copy would materialize locally). -/
structure CapEnv where
  containerRunning : Bool
  whichTcpdumpOk : Bool
  apkAddOk : Bool
  tcpdumpVersionOk : Bool
  versionOutput : String
  execDetachedOk : Bool
  pkillOk : Bool
  dockerCpOk : String → Bool
  pcapContent : String → String

/-- check_container_running: docker ps lookup; logs when not running. -/
def check_container_running (env : CapEnv) (st : St) : Bool × St :=
  if env.containerRunning then (true, st)
  else (false, logMsg ("Container capture_poc is not running") st)

/-- check_tcpdump: verify the capture container is reachable, install
tcpdump on demand, then query its version. -/
def check_tcpdump (env : CapEnv) (st : St) : Bool × St :=
  let p := check_container_running env st
  if !p.1 then (false, p.2)
  else
    let q :=
      if env.whichTcpdumpOk then (true, p.2)
      else
        let st := logMsg ("tcpdump not found in capture_poc container.") p.2
        let st := logMsg ("Installing tcpdump...") st
        if env.apkAddOk then (true, logMsg ("tcpdump installed successfully.") st)
        else (false, logMsg ("Failed to install tcpdump. Error: <stderr>") st)
    if !q.1 then (false, q.2)
    else if env.tcpdumpVersionOk then
      (true, logMsg ("tcpdump version output: " ++ env.versionOutput) q.2)
    else (false, logMsg ("Failed to get tcpdump version. Error: <stderr>") q.2)

/-- ensure_capture_dir: create the local captures directory if missing
(the creation is modelled as succeeding; the exception branch of the source
logs and returns False). -/
def ensure_capture_dir (st : St) : Bool × St :=
  if st.fs.dirs CAPTURES_DIR then (true, st)
  else (true, logMsg ("Created captures directory: " ++ CAPTURES_DIR) (makeDir CAPTURES_DIR st))

/-- copy_pcap(pcap_name): docker cp the named capture from the agent into
the local captures directory and verify it arrived; the byte size is read
from the copied content.  The docker cp invocation records a copyAttempt
event. -/
def copy_pcap (env : CapEnv) (pcap_name : String) (st : St) : Bool × St :=
  let p := check_container_running env st
  if !p.1 then (false, p.2)
  else
    let q := ensure_capture_dir p.2
    if !q.1 then (false, q.2)
    else
      let st := emit (Event.copyAttempt pcap_name) q.2
      if env.dockerCpOk pcap_name then
        let localPath := CAPTURES_DIR ++ "/" ++ pcap_name
        let st := writeFile localPath (env.pcapContent pcap_name) st
        if (st.fs.files localPath).isSome then
          (true, logMsg (pcap_name ++ " copied to " ++ CAPTURES_DIR ++ " ("
                   ++ toString (env.pcapContent pcap_name).length ++ " bytes)") st)
        else
          (false, logMsg (pcap_name ++ " not found in " ++ CAPTURES_DIR) st)
      else
        (false, logMsg ("Failed to copy " ++ pcap_name ++ " from capture_poc. Error: <stderr>") st)

/-- stop_tcpdump(quiet): send SIGINT to tcpdump in the agent, wait a grace
period, resolve the current-capture pointer file (falling back to test.pcap
when it is absent), and retrieve the resulting file. -/
def stop_tcpdump (env : CapEnv) (quiet : Bool) (st : St) : Bool × St :=
  let p := check_container_running env st
  if !p.1 then (false, p.2)
  else
    let st :=
      if !env.pkillOk && !quiet then
        logMsg ("Failed to send SIGINT to tcpdump in capture_poc (it may not be running)") p.2
      else p.2
    let current_capture :=
      match st.fs.files current_capture_file with
      | some s => pyStrip s
      | none => "test.pcap"
    copy_pcap env current_capture st

/-- start_tcpdump(interface, pcap_name): verify the agent and its capture
tool, ensure the local captures directory, stop any prior session, resolve
an "auto" output name to capture_<timestamp>.pcap using `now` (the strftime
result), launch tcpdump detached, and persist the resolved name as the sole
content of the current-capture pointer file. -/
def start_tcpdump (env : CapEnv) (now anInterface pcap_name : String) (st : St) :
    Bool × St :=
  let p := check_container_running env st
  if !p.1 then (false, p.2)
  else
    let q := check_tcpdump env p.2
    if !q.1 then (false, q.2)
    else
      let r := ensure_capture_dir q.2
      if !r.1 then (false, r.2)
      else
        let s := stop_tcpdump env true r.2
        let pcap_name :=
          if pcap_name = "auto" then "capture_" ++ now ++ ".pcap" else pcap_name
        let container_pcap_path := "/captures/" ++ pcap_name
        if env.execDetachedOk then
          let st := logMsg ("tcpdump started in capture_poc on interface "
                      ++ anInterface ++ " -> " ++ container_pcap_path) s.2
          (true, writeFile current_capture_file pcap_name st)
        else
          (false, logMsg ("Failed to start tcpdump in capture_poc on interface "
                    ++ anInterface ++ ". Error: <stderr>") s.2)

/-! ## tests/test_all_proxies.py -/

/-- A proxy profile from the PROXIES table: name, optional proxy
environment overrides, description. -/
structure ProxyConfig where
  name : String
  env : Option (List (String × String))
  description : String
deriving DecidableEq

def TEST_HOSTS : List String :=
  ["http://httpbin.org/get",
   "https://httpbin.org/get",
   "http://example.com",
   "https://example.com"]

def PROXIES : List ProxyConfig :=
  [{ name := "direct", env := none,
     description := "Direct connection (no proxy)" },
   { name := "squid",
     env := some [("http_proxy", "http://squid_poc:3128"),
                  ("https_proxy", "http://squid_poc:3128")],
     description := "Squid proxy with SSL bump" },
   { name := "mitmproxy",
     env := some [("http_proxy", "http://mitmproxy_poc:8080"),
                  ("https_proxy", "http://mitmproxy_poc:8080")],
     description := "mitmproxy with TLS interception" }]

/-- Outcome of one curl subprocess for a (proxy, host) pair: either the
process completed with a return code and captured stderr, or issuing the
request raised an exception with a message. -/
inductive ReqOutcome where
  | completed (returncode : Int) (stderrOut : String)
  | raised (msg : String)

/-- One element of the results array.  `return_code` and `stderr` are
Options because the exception branch of test_proxy builds its dictionary
without those keys (it records `error` instead). -/
structure ResultEntry where
  proxy : String
  url : String
  success : Bool
  return_code : Option Int
  stderr : Option String
  error : Option String
  timestamp : String
deriving DecidableEq

/-- Build one results entry exactly the way the body of the host loop of
test_proxy does. -/
def mkResult (proxy_name host : String) (o : ReqOutcome) (ts : String) :
    ResultEntry :=
  match o with
  | ReqOutcome.completed rc stderrOut =>
    { proxy := proxy_name, url := host,
      success := rc == 0,
      return_code := some rc,
      stderr := if rc == 0 then none else some stderrOut,
      error := none,
      timestamp := ts }
  | ReqOutcome.raised msg =>
    { proxy := proxy_name, url := host,
      success := false,
      return_code := none,
      stderr := none,
      error := some msg,
      timestamp := ts }

/-- The port_mapping dictionary of test_proxy; looking up any other
non-direct profile name raises KeyError. -/
def port_mapping (n : String) : Option Nat :=
  if n = "squid" then some 3129
  else if n = "mitmproxy" then some 8081
  else none

/-- test_proxy(proxy_config): run the host loop for one profile.  The
advisory health check result (healthOk) is only logged and never affects
the returned entries; `out` gives the curl outcome and `clock` the
datetime.now() timestamp for each (proxy, host) pair.  For a profile whose
name is neither "direct", "squid" nor "mitmproxy" the subscript
port_mapping[proxy_name] raises KeyError, which escapes test_proxy. -/
def test_proxy (healthOk : String → Bool)
    (out : String → String → ReqOutcome) (clock : String → String → String)
    (hosts : List String) (cfg : ProxyConfig) :
    Except String (List ResultEntry) :=
  let entries := hosts.map (fun h => mkResult cfg.name h (out cfg.name h) (clock cfg.name h))
  if cfg.name = "direct" then Except.ok entries
  else
    match port_mapping cfg.name with
    | none => Except.error ("KeyError: " ++ cfg.name)
    | some _ =>
      let _advisory := healthOk cfg.name
      Except.ok entries

/-- The accumulation loop of run_all_tests: extend all_results with each
profile result list in declaration order; an escaping exception aborts the
loop. -/
def collect_results (healthOk : String → Bool)
    (out : String → String → ReqOutcome) (clock : String → String → String)
    (hosts : List String) : List ProxyConfig → Except String (List ResultEntry)
  | [] => Except.ok []
  | cfg :: rest =>
    match test_proxy healthOk out clock hosts cfg with
    | Except.error e => Except.error e
    | Except.ok rs =>
      match collect_results healthOk out clock hosts rest with
      | Except.error e => Except.error e
      | Except.ok more => Except.ok (rs ++ more)

structure TestRunInfo where
  timestamp : String
  total_proxies : Nat
  total_tests : Nat
  successful_tests : Nat
deriving DecidableEq

/-- The JSON document run_all_tests persists. -/
structure TestReport where
  test_run : TestRunInfo
  proxy_configs : List ProxyConfig
  test_hosts : List String
  results : List ResultEntry
deriving DecidableEq

/-- run_all_tests(): execute the matrix over the given profiles and hosts
and build the persisted report.  An exception escaping a test_proxy call
propagates (it is caught only in main). -/
def run_all_tests (healthOk : String → Bool) (proxies : List ProxyConfig)
    (hosts : List String) (out : String → String → ReqOutcome)
    (clock : String → String → String) (runTs : String) :
    Except String TestReport :=
  match collect_results healthOk out clock hosts proxies with
  | Except.error e => Except.error e
  | Except.ok all_results =>
    Except.ok
      { test_run :=
          { timestamp := runTs,
            total_proxies := proxies.length,
            total_tests := all_results.length,
            successful_tests := (all_results.filter (fun r => r.success)).length },
        proxy_configs := proxies,
        test_hosts := hosts,
        results := all_results }

/-- main(): run the suite; exit 1 when any test failed or when an exception
escaped run_all_tests, otherwise return normally (process exit code 0). -/
def main_exit_code (healthOk : String → Bool) (proxies : List ProxyConfig)
    (hosts : List String) (out : String → String → ReqOutcome)
    (clock : String → String → String) (runTs : String) : Nat :=
  match run_all_tests healthOk proxies hosts out clock runTs with
  | Except.error _ => 1
  | Except.ok rep =>
    if (rep.results.filter (fun r => !r.success)).length > 0 then 1 else 0

def emptyReport : TestReport :=
  { test_run := { timestamp := "", total_proxies := 0, total_tests := 0, successful_tests := 0 },
    proxy_configs := [], test_hosts := [], results := [] }

/-- Project the report out of a finished run (the error case never occurs
for profile lists whose names all avoid the KeyError hazard). -/
def getReport (x : Except String TestReport) : TestReport :=
  match x with
  | Except.ok r => r
  | Except.error _ => emptyReport

/-! ## Lemmas about the readiness-polling loop -/

theorem wait_loop_elapsed_le (ex : Nat → Bool) (max_wait : Nat) :
    ∀ gas elapsed, elapsed ≤ max_wait + 2 →
      (wait_for_file_loop ex max_wait gas elapsed).2 ≤ max_wait + 2 := by
  intro gas
  induction gas with
  | zero => intro elapsed he; simpa [wait_for_file_loop] using he
  | succ g ih =>
    intro elapsed he
    unfold wait_for_file_loop
    by_cases h1 : ex elapsed
    · simpa [h1] using he
    · by_cases h2 : elapsed > max_wait
      · simpa [h1, h2] using he
      · have : elapsed + 2 ≤ max_wait + 2 := by omega
        simpa [h1, h2] using ih (elapsed + 2) this

theorem wait_loop_true (ex : Nat → Bool) (max_wait : Nat)
    (hmono : ∀ s t, s ≤ t → ex s = true → ex t = true)
    (hex : ∃ t, t ≤ max_wait ∧ ex t = true) :
    ∀ gas elapsed, max_wait + 4 ≤ 2 * gas + elapsed → elapsed ≤ max_wait + 2 →
      (wait_for_file_loop ex max_wait gas elapsed).1 = true := by
  intro gas
  induction gas with
  | zero => intro elapsed hg he; omega
  | succ g ih =>
    intro elapsed hg he
    unfold wait_for_file_loop
    by_cases h1 : ex elapsed
    · simp [h1]
    · by_cases h2 : elapsed > max_wait
      · obtain ⟨t, ht, hext⟩ := hex
        have : ex elapsed = true := hmono t elapsed (by omega) hext
        simp [this] at h1
      · have hg2 : max_wait + 4 ≤ 2 * g + (elapsed + 2) := by omega
        have he2 : elapsed + 2 ≤ max_wait + 2 := by omega
        simpa [h1, h2] using ih (elapsed + 2) hg2 he2

theorem wait_loop_false (ex : Nat → Bool) (max_wait : Nat)
    (hnever : ∀ t, ex t = false) :
    ∀ gas elapsed, (wait_for_file_loop ex max_wait gas elapsed).1 = false := by
  intro gas
  induction gas with
  | zero => intro elapsed; simp [wait_for_file_loop]
  | succ g ih =>
    intro elapsed
    unfold wait_for_file_loop
    by_cases h2 : elapsed > max_wait
    · simp [hnever, h2]
    · simpa [hnever, h2] using ih (elapsed + 2)

/-- Fuel stabilization: with the invariant the wrapper establishes, one more
unit of fuel does not change the loop result, so the fuel-exhaustion branch
is unreachable and the fuel choice max_wait + 2 is immaterial. -/
theorem wait_loop_fuel_stable (ex : Nat → Bool) (max_wait : Nat) :
    ∀ gas elapsed, max_wait + 4 ≤ 2 * gas + elapsed → elapsed ≤ max_wait + 2 →
      wait_for_file_loop ex max_wait gas elapsed
        = wait_for_file_loop ex max_wait (gas + 1) elapsed := by
  intro gas
  induction gas with
  | zero => intro elapsed hg he; omega
  | succ g ih =>
    intro elapsed hg he
    conv_lhs => unfold wait_for_file_loop
    conv_rhs => unfold wait_for_file_loop
    by_cases h1 : ex elapsed
    · simp [h1]
    · by_cases h2 : elapsed > max_wait
      · simp [h1, h2]
      · have hg2 : max_wait + 4 ≤ 2 * g + (elapsed + 2) := by omega
        have he2 : elapsed + 2 ≤ max_wait + 2 := by omega
        simpa [h1, h2] using ih (elapsed + 2) hg2 he2

/-- Any fuel at least max_wait + 2 computes the same run. -/
theorem wait_for_file_fuel_irrel (ex : Nat → Bool) (max_wait : Nat) :
    ∀ k, wait_for_file_run ex max_wait
      = wait_for_file_loop ex max_wait (max_wait + 2 + k) 0 := by
  intro k
  induction k with
  | zero => rfl
  | succ j ih =>
    rw [ih, wait_loop_fuel_stable ex max_wait (max_wait + 2 + j) 0 (by omega) (by omega)]
    rw [show max_wait + 2 + j + 1 = max_wait + 2 + (j + 1) by omega]

/-- C4.  wait_for_file polls on a fixed 2-second interval (the elapsed
clock advances by exactly 2 per iteration in the embedding): it returns
true when the file exists at some poll not later than the deadline (file
existence is monotone once the file is created), it returns false when the
file never appears, it is a total function of its oracle (the loop body
never raises), and the loop returns no later than max_wait plus one poll
interval after it started. -/
theorem wait_for_file_contract (ex : Nat → Bool) (max_wait : Nat) :
    ((∀ s t, s ≤ t → ex s = true → ex t = true) →
      (∃ t, t ≤ max_wait ∧ ex t = true) →
      wait_for_file ex max_wait = true)
  ∧ ((∀ t, ex t = false) → wait_for_file ex max_wait = false)
  ∧ (wait_for_file_run ex max_wait).2 ≤ max_wait + 2 := by
  refine ⟨?_, ?_, ?_⟩
  · intro hmono hex
    exact wait_loop_true ex max_wait hmono hex (max_wait + 2) 0 (by omega) (by omega)
  · intro hnever
    exact wait_loop_false ex max_wait hnever (max_wait + 2) 0
  · exact wait_loop_elapsed_le ex max_wait (max_wait + 2) 0 (by omega)

/-- Witness for C4 at concrete inputs: a 6-second deadline with a 2-second
poll interval.  A file that exists from the start is found; a file that
never appears yields false with the loop returning by 8 elapsed seconds. -/
theorem wait_for_file_contract_witness :
    wait_for_file (fun _ => true) 6 = true
  ∧ wait_for_file (fun _ => false) 6 = false
  ∧ (wait_for_file_run (fun _ => false) 6).2 ≤ 8 := by
  refine ⟨?_, ?_, ?_⟩
  · exact (wait_for_file_contract (fun _ => true) 6).1
      (fun s t _ h => h) ⟨0, by omega, rfl⟩
  · exact (wait_for_file_contract (fun _ => false) 6).2.1 (fun t => rfl)
  · exact (wait_for_file_contract (fun _ => false) 6).2.2

/-! ## CA generation: idempotence -/

theorem create_dir_step_files (s : St) (d : String) :
    (create_dir_step s d).fs.files = s.fs.files := by
  unfold create_dir_step
  by_cases h : s.fs.dirs d
  · simp [h]
  · simp [h, logMsg, makeDir]

theorem ensure_foldl_files (l : List String) :
    ∀ st : St, (l.foldl create_dir_step st).fs.files = st.fs.files := by
  induction l with
  | nil => intro st; rfl
  | cons d rest ih =>
    intro st
    rw [List.foldl_cons, ih, create_dir_step_files]

theorem ensure_files_ne_conf (st : St) (p : String) (hp : p ≠ squid_conf_path) :
    (ensure_directories_and_files st).2.fs.files p = st.fs.files p := by
  show (let st1 := directories_to_create.foldl create_dir_step st
        let st2 :=
          if (st1.fs.files squid_conf_path).isSome then st1
          else logMsg ("Created squid configuration file: " ++ squid_conf_path)
                 (writeFile squid_conf_path squid_conf_content st1)
        (true, st2)).2.fs.files p = st.fs.files p
  simp only []
  by_cases h : ((directories_to_create.foldl create_dir_step st).fs.files squid_conf_path).isSome
  · simp only [h, if_true]
    rw [ensure_foldl_files]
  · simp only [h, if_false, Bool.false_eq_true]
    simp only [logMsg, writeFile]
    simp only [hp, if_false]
    rw [ensure_foldl_files]

theorem ensure_fst_true (st : St) : (ensure_directories_and_files st).1 = true := rfl

/-- C2.  CA generation is idempotent: when both the CA key file and the CA
certificate file already exist (in particular with valid content, as the
validity hypothesis records), generate_ca takes the already-exist branch and
leaves the content of both paths untouched — no key regeneration, no
re-signing, no write to either path. -/
theorem generate_ca_idempotent (genOk : Bool) (keyPem certPem : String)
    (parses : String → Bool) (st : St)
    (hk : (st.fs.files CA_KEY).isSome)
    (hc : (st.fs.files CA_CERT).isSome)
    (hvalid : (is_valid_pem_cert parses CA_CERT st).1 = true) :
    (generate_ca genOk keyPem certPem st).fs.files CA_KEY = st.fs.files CA_KEY
  ∧ (generate_ca genOk keyPem certPem st).fs.files CA_CERT = st.fs.files CA_CERT := by
  have hkey : CA_KEY ≠ squid_conf_path := by decide
  have hcert : CA_CERT ≠ squid_conf_path := by decide
  have ek := ensure_files_ne_conf st CA_KEY hkey
  have ec := ensure_files_ne_conf st CA_CERT hcert
  have hk2 : ((ensure_directories_and_files st).2.fs.files CA_KEY).isSome := by
    rw [ek]; exact hk
  have hc2 : ((ensure_directories_and_files st).2.fs.files CA_CERT).isSome := by
    rw [ec]; exact hc
  simp only [generate_ca, ensure_fst_true, hk2, hc2, Bool.and_true, Bool.not_true,
    Bool.false_eq_true, if_false, logMsg]
  exact ⟨ek, ec⟩

/-- A state in which both CA files exist with fixed content. -/
def stWithCA : St :=
  writeFile CA_CERT "CERTPEM" (writeFile CA_KEY "KEYPEM" stEmpty)

/-- Witness for C2: on a concrete state holding both CA files with content
that the parse oracle accepts, a further generate_ca call changes neither
file. -/
theorem generate_ca_idempotent_witness :
    (generate_ca true "K2" "C2" stWithCA).fs.files CA_KEY = stWithCA.fs.files CA_KEY
  ∧ (generate_ca true "K2" "C2" stWithCA).fs.files CA_CERT = stWithCA.fs.files CA_CERT :=
  generate_ca_idempotent true "K2" "C2" (fun _ => true) stWithCA
    (by decide) (by decide) (by decide)

/-! ## Certificate validation and trust install -/

/-- C7.  is_valid_pem_cert returns true exactly when the file exists, its
content is non-empty after stripping whitespace, and the content parses as
a PEM X.509 certificate; in every other case (missing file, blank content,
parse exception) it returns false, and it only ever logs — it mutates no
file and raises nothing (the embedding is a total function). -/
theorem is_valid_pem_cert_contract (parses : String → Bool) (cert_path : String)
    (st : St) :
    ((is_valid_pem_cert parses cert_path st).1 = true
      ↔ ∃ data, st.fs.files cert_path = some data
          ∧ pyStrip data ≠ "" ∧ parses data = true)
  ∧ (is_valid_pem_cert parses cert_path st).2.fs = st.fs := by
  unfold is_valid_pem_cert
  cases hfile : st.fs.files cert_path with
  | none => simp
  | some data =>
    by_cases hblank : pyStrip data = ""
    · simp [hblank]
    · by_cases hp : parses data
      · simp [hblank, hp]
      · simp [hblank, hp, logMsg]

/-- Witness for C7 (the contract has no top-level hypothesis, but each side
of the equivalence is exercised at concrete inputs through the theorem):
a state holding a parseable certificate validates, and the empty state does
not. -/
theorem is_valid_pem_cert_contract_witness :
    (is_valid_pem_cert (fun _ => true) CA_CERT stWithCA).1 = true
  ∧ (is_valid_pem_cert (fun _ => true) CA_CERT stEmpty).1 = false := by
  constructor
  · exact (is_valid_pem_cert_contract (fun _ => true) CA_CERT stWithCA).1.mpr
      ⟨"CERTPEM", by decide, by decide, rfl⟩
  · have h := (is_valid_pem_cert_contract (fun _ => true) CA_CERT stEmpty).1
    by_contra hc
    have : (is_valid_pem_cert (fun _ => true) CA_CERT stEmpty).1 = true := by
      revert hc
      cases (is_valid_pem_cert (fun _ => true) CA_CERT stEmpty).1 <;> simp
    obtain ⟨data, hdata, _, _⟩ := h.mp this
    exact Option.noConfusion hdata

/-- C8.  install_ca called with a nonexistent source path returns false,
leaves the filesystem (files and directories) unchanged, and appends exactly
the not-found line to the log: no trust directory is created and no file is
copied. -/
theorem install_ca_nonexistent_source (src dst_name : String) (st : St)
    (h : st.fs.files src = none) :
    (install_ca src dst_name st).1 = false
  ∧ (install_ca src dst_name st).2.fs = st.fs
  ∧ (install_ca src dst_name st).2.log
      = st.log ++ ["CA candidate not found: " ++ src] := by
  unfold install_ca
  simp [h, logMsg, emit]

/-- Witness for C8: installing from a missing source in the empty state. -/
theorem install_ca_nonexistent_source_witness :
    (install_ca "/missing.pem" "missing.crt" stEmpty).1 = false
  ∧ (install_ca "/missing.pem" "missing.crt" stEmpty).2.fs = stEmpty.fs
  ∧ (install_ca "/missing.pem" "missing.crt" stEmpty).2.log
      = stEmpty.log ++ ["CA candidate not found: /missing.pem"] :=
  install_ca_nonexistent_source "/missing.pem" "missing.crt" stEmpty rfl

/-! ## Trust-store rebuild ordering -/

theorem logMsg_events (m : String) (st : St) : (logMsg m st).events = st.events := rfl

theorem refresh_mem_install_iff (src dst : String) (st : St) :
    Event.refreshTrust ∈ (install_ca src dst st).2.events
      ↔ Event.refreshTrust ∈ st.events := by
  unfold install_ca
  cases hsrc : st.fs.files src with
  | none => simp [hsrc, emit, logMsg]
  | some v =>
    by_cases hd : st.fs.dirs ("/usr/local/share/ca-certificates")
    · simp [hsrc, hd, emit, logMsg, writeFile]
    · simp [hsrc, hd, emit, logMsg, writeFile, makeDir]

theorem refresh_mem_wait_block (b : Bool) (p n msgA msgB msgC : String) (st : St) :
    Event.refreshTrust ∈
      (if b then
        (if (install_ca p n st).1 then logMsg msgA (install_ca p n st).2
         else logMsg msgB (install_ca p n st).2)
       else logMsg msgC st).events
      ↔ Event.refreshTrust ∈ st.events := by
  cases b with
  | false => simp [logMsg_events]
  | true =>
    by_cases hi : (install_ca p n st).1
    · simp [hi, logMsg_events, refresh_mem_install_iff]
    · simp [hi, logMsg_events, refresh_mem_install_iff]

/-- C3 counterexample.  On the Linux target, with no CA file anywhere (so
both waits time out and install_ca is never even called, let alone returns
true), the automatic-mode installer still invokes the OS trust-store
rebuild: the event trace of the run is exactly one refreshTrust invocation,
violating "if no install succeeded, the rebuild is not invoked". -/
theorem auto_refresh_without_any_install :
    (auto_install_all_cas "Linux" stEmpty).events = [Event.refreshTrust]
  ∧ refresh_only_after_success (auto_install_all_cas "Linux" stEmpty).events = false := by
  constructor
  · rfl
  · rfl

/-- C3 amended.  The trust-store rebuild in auto_install_all_cas is invoked
precisely when the platform is Linux, independent of whether any install
call returned true; the separate module-level install step (Step 2 of the
script) is the one that guards its rebuild behind a successful install of
the generated CA certificate. -/
theorem refresh_trust_invocation (platformSystem : String) (st : St) :
    (Event.refreshTrust ∈ (auto_install_all_cas platformSystem st).events
      ↔ (platformSystem = "Linux" ∨ Event.refreshTrust ∈ st.events))
  ∧ (Event.refreshTrust ∈ (module_install_step platformSystem st).events
      ↔ ((platformSystem = "Linux" ∧ (st.fs.files CA_CERT).isSome)
          ∨ Event.refreshTrust ∈ st.events)) := by
  constructor
  · unfold auto_install_all_cas
    simp only [logMsg_events]
    by_cases hlin : platformSystem = "Linux"
    · simp only [hlin, if_true, logMsg_events, emit, List.mem_append]
      simp
    · simp only [hlin, if_false]
      rw [refresh_mem_wait_block, refresh_mem_wait_block, logMsg_events]
      simp [hlin]
  · unfold module_install_step
    by_cases hlin : platformSystem = "Linux"
    · by_cases hc : ((st.fs.files CA_CERT).isSome : Bool)
      · have h1 : (install_ca CA_CERT "proxy-ja4-ca.crt" st).1 = true := by
          unfold install_ca
          simp [hc]
        simp only [hlin, if_true, h1, logMsg_events, emit, List.mem_append]
        simp [hlin, hc]
      · have h1 : (install_ca CA_CERT "proxy-ja4-ca.crt" st).1 = false := by
          unfold install_ca
          simp [hc]
        simp only [hlin, if_true, h1, Bool.false_eq_true, if_false, logMsg_events]
        rw [refresh_mem_install_iff]
        simp [hlin, hc]
    · simp only [hlin, if_false, logMsg_events]
      simp [hlin]

/-! ## Capture session lifecycle -/

theorem ensure_capture_dir_fst (st : St) : (ensure_capture_dir st).1 = true := by
  unfold ensure_capture_dir
  by_cases h : st.fs.dirs CAPTURES_DIR
  · simp [h]
  · simp [h]

theorem copyAttempt_mem_copy_pcap (env : CapEnv) (name : String) (st : St)
    (hrun : env.containerRunning = true) :
    Event.copyAttempt name ∈ (copy_pcap env name st).2.events := by
  unfold copy_pcap check_container_running
  simp only [hrun, if_true, Bool.not_true, Bool.false_eq_true, if_false]
  by_cases hd : st.fs.dirs CAPTURES_DIR
  · by_cases hcp : env.dockerCpOk name
    · simp [ensure_capture_dir, hd, hcp, emit, logMsg, writeFile, List.mem_append]
    · simp [ensure_capture_dir, hd, hcp, emit, logMsg, List.mem_append]
  · by_cases hcp : env.dockerCpOk name
    · simp [ensure_capture_dir, hd, hcp, emit, logMsg, writeFile, makeDir, List.mem_append]
    · simp [ensure_capture_dir, hd, hcp, emit, logMsg, makeDir, List.mem_append]

/-- C9.  stop() with no prior start(): when the .current_capture pointer
file is absent, stop_tcpdump resolves the capture name to the fixed
fallback test.pcap and still performs the best-effort retrieve attempt
(docker cp) for that name.  The embedding is a total function returning a
Bool paired with the final state, so no exception can escape. -/
theorem stop_without_start (env : CapEnv) (st : St)
    (hrun : env.containerRunning = true)
    (hptr : st.fs.files current_capture_file = none) :
    Event.copyAttempt "test.pcap" ∈ (stop_tcpdump env false st).2.events := by
  unfold stop_tcpdump check_container_running
  simp only [hrun, if_true, Bool.not_true, Bool.false_eq_true, if_false]
  by_cases hk : env.pkillOk
  · simp only [hk, Bool.not_true, Bool.false_and, Bool.false_eq_true, if_false, hptr]
    exact copyAttempt_mem_copy_pcap env ("test.pcap") st hrun
  · have hfiles : (logMsg ("Failed to send SIGINT to tcpdump in capture_poc (it may not be running)") st).fs.files current_capture_file = none := hptr
    simp only [hk, Bool.not_false, Bool.true_and, Bool.not_true, if_true, hfiles]
    exact copyAttempt_mem_copy_pcap env ("test.pcap") _ hrun

/-- A concrete capture-agent environment in which everything except the
final docker cp succeeds (there is no capture file to retrieve). -/
def capEnvNoFile : CapEnv :=
  { containerRunning := true, whichTcpdumpOk := true, apkAddOk := true,
    tcpdumpVersionOk := true, versionOutput := "tcpdump version 4",
    execDetachedOk := true, pkillOk := false,
    dockerCpOk := fun _ => false, pcapContent := fun _ => "" }

/-- Witness for C9: stopping in the empty state (no pointer file, nothing
ever started, the SIGINT finds no process) still attempts to retrieve
test.pcap. -/
theorem stop_without_start_witness :
    Event.copyAttempt "test.pcap" ∈ (stop_tcpdump capEnvNoFile false stEmpty).2.events :=
  stop_without_start capEnvNoFile stEmpty rfl rfl

theorem stop_resolves_pointer (env : CapEnv) (st : St) (name : String)
    (hrun : env.containerRunning = true)
    (hptr : st.fs.files current_capture_file = some name) :
    Event.copyAttempt (pyStrip name) ∈ (stop_tcpdump env false st).2.events := by
  unfold stop_tcpdump check_container_running
  simp only [hrun, if_true, Bool.not_true, Bool.false_eq_true, if_false]
  by_cases hk : env.pkillOk
  · simp only [hk, Bool.not_true, Bool.false_and, Bool.false_eq_true, if_false, hptr]
    exact copyAttempt_mem_copy_pcap env (pyStrip name) st hrun
  · have hfiles : (logMsg ("Failed to send SIGINT to tcpdump in capture_poc (it may not be running)") st).fs.files current_capture_file = some name := hptr
    simp only [hk, Bool.not_false, Bool.true_and, Bool.not_true, if_true, hfiles]
    exact copyAttempt_mem_copy_pcap env (pyStrip name) _ hrun

/-- C10.  Every successful start_tcpdump call with output name "auto"
resolves the name to capture_<timestamp>.pcap (with `now` the strftime
%Y%m%d_%H%M%S result taken at start) and writes exactly that resolved name
as the sole content of the .current_capture sentinel file; a stop_tcpdump
issued on the resulting state reads the sentinel back and attempts the
retrieve of exactly that name. -/
theorem start_auto_sentinel (env : CapEnv) (now anInterface : String) (st : St)
    (h : (start_tcpdump env now anInterface "auto" st).1 = true) :
    (start_tcpdump env now anInterface "auto" st).2.fs.files current_capture_file
      = some ("capture_" ++ now ++ ".pcap")
  ∧ Event.copyAttempt ("capture_" ++ now ++ ".pcap")
      ∈ (stop_tcpdump env false
          ((start_tcpdump env now anInterface "auto" st).2)).2.events := by
  by_cases hcr : env.containerRunning
  · by_cases hq : (check_tcpdump env st).1
    · by_cases hex : env.execDetachedOk
      · have h1 : (start_tcpdump env now anInterface "auto" st).2.fs.files current_capture_file
            = some ("capture_" ++ now ++ ".pcap") := by
          unfold start_tcpdump check_container_running
          simp only [hcr, if_true, Bool.not_true, Bool.false_eq_true, if_false]
          simp only [hq, Bool.not_true, Bool.false_eq_true, if_false]
          simp only [ensure_capture_dir_fst, Bool.not_true, Bool.false_eq_true, if_false]
          simp only [hex, if_true]
          simp [writeFile]
        refine ⟨h1, ?_⟩
        have h2 := stop_resolves_pointer env
          ((start_tcpdump env now anInterface "auto" st).2)
          ("capture_" ++ now ++ ".pcap") hcr h1
        rwa [pyStrip_capture_name] at h2
      · exfalso
        unfold start_tcpdump check_container_running at h
        simp [hcr, hq, ensure_capture_dir_fst, hex] at h
    · exfalso
      unfold start_tcpdump check_container_running at h
      simp [hcr, hq] at h
  · exfalso
    unfold start_tcpdump check_container_running at h
    simp [hcr] at h

/-- A capture-agent environment in which every external step succeeds. -/
def capEnvOk : CapEnv :=
  { containerRunning := true, whichTcpdumpOk := true, apkAddOk := true,
    tcpdumpVersionOk := true, versionOutput := "tcpdump version 4",
    execDetachedOk := true, pkillOk := true,
    dockerCpOk := fun _ => true, pcapContent := fun _ => "PCAPBYTES" }

/-- Witness for C10: a concrete successful start with output "auto" on the
empty state writes the timestamped name into the sentinel, and the
subsequent stop attempts to retrieve exactly that file. -/
theorem start_auto_sentinel_witness :
    (start_tcpdump capEnvOk "20250101_120000" "eth0" "auto" stEmpty).2.fs.files
        current_capture_file = some ("capture_20250101_120000.pcap")
  ∧ Event.copyAttempt ("capture_20250101_120000.pcap")
      ∈ (stop_tcpdump capEnvOk false
          ((start_tcpdump capEnvOk "20250101_120000" "eth0" "auto" stEmpty).2)).2.events :=
  start_auto_sentinel capEnvOk "20250101_120000" "eth0" stEmpty rfl

/-! ## Test matrix lemmas -/

theorem mkResult_proxy (n h : String) (o : ReqOutcome) (ts : String) :
    (mkResult n h o ts).proxy = n := by
  cases o <;> rfl

theorem mkResult_url (n h : String) (o : ReqOutcome) (ts : String) :
    (mkResult n h o ts).url = h := by
  cases o <;> rfl

/-- The results list run_all_tests accumulates: profiles in declaration
order, hosts in declaration order within each profile. -/
def matrixResults (out : String → String → ReqOutcome)
    (clock : String → String → String) (P : List ProxyConfig)
    (T : List String) : List ResultEntry :=
  P.flatMap (fun cfg => T.map (fun h => mkResult cfg.name h (out cfg.name h) (clock cfg.name h)))

theorem test_proxy_ok (healthOk : String → Bool)
    (out : String → String → ReqOutcome) (clock : String → String → String)
    (hosts : List String) (cfg : ProxyConfig)
    (hn : cfg.name = "direct" ∨ cfg.name = "squid" ∨ cfg.name = "mitmproxy") :
    test_proxy healthOk out clock hosts cfg
      = Except.ok (hosts.map (fun h => mkResult cfg.name h (out cfg.name h) (clock cfg.name h))) := by
  rcases hn with hn | hn | hn
  · simp [test_proxy, hn]
  · simp [test_proxy, hn, port_mapping,
      (show ("squid" : String) ≠ "direct" by decide)]
  · simp [test_proxy, hn, port_mapping,
      (show ("mitmproxy" : String) ≠ "direct" by decide),
      (show ("mitmproxy" : String) ≠ "squid" by decide)]

theorem collect_results_ok (healthOk : String → Bool)
    (out : String → String → ReqOutcome) (clock : String → String → String)
    (hosts : List String) :
    ∀ P : List ProxyConfig,
      (∀ cfg ∈ P, cfg.name = "direct" ∨ cfg.name = "squid" ∨ cfg.name = "mitmproxy") →
      collect_results healthOk out clock hosts P
        = Except.ok (matrixResults out clock P hosts) := by
  intro P
  induction P with
  | nil => intro _; rfl
  | cons cfg rest ih =>
    intro hname
    have h1 := test_proxy_ok healthOk out clock hosts cfg (hname cfg (by simp))
    have h2 := ih (fun c hc => hname c (by simp [hc]))
    unfold collect_results
    rw [h1, h2]
    rfl

theorem run_all_tests_ok (healthOk : String → Bool) (P : List ProxyConfig)
    (T : List String) (out : String → String → ReqOutcome)
    (clock : String → String → String) (runTs : String)
    (hname : ∀ cfg ∈ P, cfg.name = "direct" ∨ cfg.name = "squid" ∨ cfg.name = "mitmproxy") :
    run_all_tests healthOk P T out clock runTs
      = Except.ok
        { test_run :=
            { timestamp := runTs,
              total_proxies := P.length,
              total_tests := (matrixResults out clock P T).length,
              successful_tests := ((matrixResults out clock P T).filter (fun r => r.success)).length },
          proxy_configs := P,
          test_hosts := T,
          results := matrixResults out clock P T } := by
  unfold run_all_tests
  rw [collect_results_ok healthOk out clock T P hname]

theorem matrixResults_length (out : String → String → ReqOutcome)
    (clock : String → String → String) (T : List String) :
    ∀ P : List ProxyConfig, (matrixResults out clock P T).length = P.length * T.length := by
  intro P
  induction P with
  | nil => simp [matrixResults]
  | cons cfg rest ih =>
    have ih2 := ih
    unfold matrixResults at ih2
    simp only [matrixResults, List.flatMap_cons, List.length_append, List.length_map,
      List.length_cons, Nat.succ_mul]
    rw [ih2]
    omega

theorem flatMap_map_getElem {α β γ : Type} (f : α → β → γ) (T : List β) :
    ∀ (P : List α) (i : Nat), i < P.length * T.length →
      (P.flatMap (fun p => T.map (f p)))[i]?
        = (P[i / T.length]?).bind (fun p => (T[i % T.length]?).map (f p)) := by
  intro P
  induction P with
  | nil => intro i hi; simp at hi
  | cons p rest ih =>
    intro i hi
    have ht : 0 < T.length := by
      by_contra hc
      have : T.length = 0 := by omega
      rw [this] at hi
      omega
    rw [List.flatMap_cons]
    by_cases hlt : i < T.length
    · rw [List.getElem?_append]
      simp only [List.length_map]
      rw [if_pos hlt]
      rw [List.getElem?_map]
      rw [Nat.div_eq_of_lt hlt, Nat.mod_eq_of_lt hlt]
      rw [List.getElem?_cons_zero]
      rfl
    · obtain ⟨j, hj⟩ : ∃ j, i = j + T.length := ⟨i - T.length, by omega⟩
      subst hj
      rw [List.getElem?_append]
      simp only [List.length_map]
      rw [if_neg hlt]
      have hj2 : j < rest.length * T.length := by
        simp only [List.length_cons, Nat.succ_mul] at hi
        omega
      have hrec := ih j hj2
      rw [show j + T.length - T.length = j by omega]
      rw [hrec]
      rw [Nat.add_div_right j ht, Nat.add_mod_right j T.length]
      rw [List.getElem?_cons_succ]

theorem length_filter_success_add (l : List ResultEntry) :
    (l.filter (fun r => r.success)).length
      + (l.filter (fun r => !r.success)).length = l.length := by
  induction l with
  | nil => rfl
  | cons a t ih =>
    by_cases h : a.success
    · simp [List.filter_cons, h]
      omega
    · simp [List.filter_cons, h]
      omega

theorem filter_fail_pos_iff (l : List ResultEntry) :
    0 < (l.filter (fun r => !r.success)).length ↔ ∃ r ∈ l, r.success = false := by
  rw [List.length_pos]
  constructor
  · intro hne
    obtain ⟨r, hr⟩ := List.exists_mem_of_ne_nil _ hne
    have := List.of_mem_filter hr
    exact ⟨r, List.mem_of_mem_filter hr, by simpa using this⟩
  · intro ⟨r, hr, hs⟩
    intro hnil
    have : r ∈ l.filter (fun r => !r.success) :=
      List.mem_filter.mpr ⟨hr, by simp [hs]⟩
    rw [hnil] at this
    simp at this

theorem matrixResults_getElem (out : String → String → ReqOutcome)
    (clock : String → String → String) (T : List String)
    (P : List ProxyConfig) (i : Nat) (hi : i < P.length * T.length) :
    (matrixResults out clock P T)[i]?
      = (P[i / T.length]?).bind
          (fun cfg => (T[i % T.length]?).map
            (fun h => mkResult cfg.name h (out cfg.name h) (clock cfg.name h))) := by
  have h := flatMap_map_getElem
    (fun (cfg : ProxyConfig) (hs : String) =>
      mkResult cfg.name hs (out cfg.name hs) (clock cfg.name hs)) T P i hi
  exact h

theorem matrixResults_proj (out : String → String → ReqOutcome)
    (clock : String → String → String) (T : List String) :
    ∀ P : List ProxyConfig,
      (matrixResults out clock P T).map (fun e => (e.proxy, e.url))
        = P.flatMap (fun cfg => T.map (fun h => (cfg.name, h))) := by
  intro P
  induction P with
  | nil => rfl
  | cons cfg rest ih =>
    have ih2 := ih
    unfold matrixResults at ih2
    simp only [matrixResults, List.flatMap_cons, List.map_append]
    rw [ih2, List.map_map]
    have hcomp : ((fun e : ResultEntry => (e.proxy, e.url))
          ∘ (fun h => mkResult cfg.name h (out cfg.name h) (clock cfg.name h)))
        = fun h => (cfg.name, h) := by
      funext h
      simp [Function.comp, mkResult_proxy, mkResult_url]
    rw [hcomp]

/-- C1.  The successful_tests field of the persisted report counts exactly the
results with success=true; the driver exits 1 precisely when some result
failed; with exactly one failure the exit code is 1 and successful_tests is
total_tests minus 1; with no failure the process does not exit non-zero. -/
theorem report_success_count_and_exit (healthOk : String → Bool)
    (P : List ProxyConfig) (T : List String)
    (out : String → String → ReqOutcome) (clock : String → String → String)
    (runTs : String)
    (hname : ∀ cfg ∈ P, cfg.name = "direct" ∨ cfg.name = "squid" ∨ cfg.name = "mitmproxy") :
    (getReport (run_all_tests healthOk P T out clock runTs)).test_run.successful_tests
      = ((getReport (run_all_tests healthOk P T out clock runTs)).results.filter
          (fun r => r.success)).length
  ∧ (main_exit_code healthOk P T out clock runTs = 1
      ↔ ∃ r ∈ (getReport (run_all_tests healthOk P T out clock runTs)).results,
          r.success = false)
  ∧ (((getReport (run_all_tests healthOk P T out clock runTs)).results.filter
        (fun r => !r.success)).length = 1 →
      main_exit_code healthOk P T out clock runTs = 1
      ∧ (getReport (run_all_tests healthOk P T out clock runTs)).test_run.successful_tests
          = (getReport (run_all_tests healthOk P T out clock runTs)).test_run.total_tests - 1)
  ∧ (((getReport (run_all_tests healthOk P T out clock runTs)).results.filter
        (fun r => !r.success)).length = 0 →
      main_exit_code healthOk P T out clock runTs = 0) := by
  have hrun := run_all_tests_ok healthOk P T out clock runTs hname
  have hmain : main_exit_code healthOk P T out clock runTs
      = if 0 < ((matrixResults out clock P T).filter (fun r => !r.success)).length
        then 1 else 0 := by
    unfold main_exit_code
    rw [hrun]
  rw [hmain, hrun]
  dsimp only [getReport]
  refine ⟨rfl, ?_, ?_, ?_⟩
  · by_cases hpos : 0 < ((matrixResults out clock P T).filter (fun r => !r.success)).length
    · rw [if_pos hpos]
      simp only [true_iff, eq_self_iff_true]
      exact (filter_fail_pos_iff (matrixResults out clock P T)).mp hpos
    · rw [if_neg hpos]
      constructor
      · intro h
        exact absurd h (by decide)
      · intro hex
        exact absurd ((filter_fail_pos_iff (matrixResults out clock P T)).mpr hex) hpos
  · intro h1
    have hpos : 0 < ((matrixResults out clock P T).filter (fun r => !r.success)).length := by
      omega
    have hadd := length_filter_success_add (matrixResults out clock P T)
    exact ⟨by rw [if_pos hpos], by omega⟩
  · intro h0
    rw [if_neg (by omega)]

/-- C5.  The matrix executes in declaration order: the results array of the report has
exactly P.length * T.length entries, entry i belongs to profile i div |T|
and target i mod |T|, and the (proxy, url) ordering of the results is the
same for any two runs (in particular for two runs with the same per-request
outcomes), making reports reproducible and diffable. -/
theorem matrix_declaration_order (healthOk : String → Bool)
    (P : List ProxyConfig) (T : List String)
    (out : String → String → ReqOutcome) (clock : String → String → String)
    (runTs : String)
    (hname : ∀ cfg ∈ P, cfg.name = "direct" ∨ cfg.name = "squid" ∨ cfg.name = "mitmproxy") :
    (getReport (run_all_tests healthOk P T out clock runTs)).results.length
      = P.length * T.length
  ∧ (∀ i, i < P.length * T.length →
      (getReport (run_all_tests healthOk P T out clock runTs)).results[i]?.map
          (fun e => e.proxy)
        = (P[i / T.length]?).map (fun cfg => cfg.name)
      ∧ (getReport (run_all_tests healthOk P T out clock runTs)).results[i]?.map
          (fun e => e.url)
        = T[i % T.length]?)
  ∧ (∀ (healthOk2 : String → Bool) (out2 : String → String → ReqOutcome)
        (clock2 : String → String → String) (runTs2 : String),
      (getReport (run_all_tests healthOk2 P T out2 clock2 runTs2)).results.map
          (fun e => (e.proxy, e.url))
        = (getReport (run_all_tests healthOk P T out clock runTs)).results.map
          (fun e => (e.proxy, e.url))) := by
  have hrun := run_all_tests_ok healthOk P T out clock runTs hname
  refine ⟨?_, ?_, ?_⟩
  · rw [hrun]
    dsimp only [getReport]
    exact matrixResults_length out clock T P
  · intro i hi
    rw [hrun]
    dsimp only [getReport]
    have ht : 0 < T.length := by
      by_contra hc
      have hz : T.length = 0 := by omega
      rw [hz] at hi
      omega
    have hip : i / T.length < P.length := Nat.div_lt_iff_lt_mul ht |>.mpr hi
    have hmod : i % T.length < T.length := Nat.mod_lt _ ht
    rw [matrixResults_getElem out clock T P i hi]
    rw [List.getElem?_eq_getElem hip, List.getElem?_eq_getElem hmod]
    constructor
    · simp [mkResult_proxy]
    · simp [mkResult_url]
  · intro healthOk2 out2 clock2 runTs2
    rw [run_all_tests_ok healthOk2 P T out2 clock2 runTs2 hname, hrun]
    dsimp only [getReport]
    rw [matrixResults_proj out2 clock2 T P, matrixResults_proj out clock T P]

/-- C6 amended.  Every entry of the persisted results array has proxy, url,
success and timestamp (structural fields of the entry); an entry recorded
from a completed curl process additionally carries return_code (with stderr
null on success) and no error key, while an entry from the exception branch
carries error with success=false and has neither return_code nor stderr. -/
theorem results_entry_schema (healthOk : String → Bool)
    (P : List ProxyConfig) (T : List String)
    (out : String → String → ReqOutcome) (clock : String → String → String)
    (runTs : String)
    (hname : ∀ cfg ∈ P, cfg.name = "direct" ∨ cfg.name = "squid" ∨ cfg.name = "mitmproxy") :
    ∀ e ∈ (getReport (run_all_tests healthOk P T out clock runTs)).results,
      (e.error = none ∧ e.return_code.isSome)
      ∨ (e.error.isSome ∧ e.return_code = none ∧ e.stderr = none ∧ e.success = false) := by
  have hrun := run_all_tests_ok healthOk P T out clock runTs hname
  rw [hrun]
  dsimp only [getReport]
  intro e he
  unfold matrixResults at he
  rw [List.mem_flatMap] at he
  obtain ⟨cfg, _, he2⟩ := he
  rw [List.mem_map] at he2
  obtain ⟨h, _, rfl⟩ := he2
  cases hout : out cfg.name h with
  | completed rc stderrOut => exact Or.inl (by simp [mkResult])
  | raised msg => exact Or.inr (by simp [mkResult])

/-! ## Concrete oracles for witnesses and counterexamples -/

def healthAll : String → Bool := fun _ => true

def clockConst : String → String → String := fun _ _ => "2025-01-01T00:00:00"

/-- Every curl call completes with exit status 0. -/
def outAllOk : String → String → ReqOutcome := fun _ _ => ReqOutcome.completed 0 ""

/-- Exactly one request (direct, first host) fails with exit status 7. -/
def outOneFail : String → String → ReqOutcome := fun p h =>
  if p = "direct" && h = "http://httpbin.org/get" then
    ReqOutcome.completed 7 ("curl: connection refused")
  else ReqOutcome.completed 0 ""

/-- Every request raises inside the host loop. -/
def outRaise : String → String → ReqOutcome := fun _ _ => ReqOutcome.raised "boom"

/-- Witness for C1 at the declared profile and host tables with exactly one
failing request: exit code 1 and successful_tests = total_tests - 1. -/
theorem report_success_count_and_exit_witness :
    main_exit_code healthAll PROXIES TEST_HOSTS outOneFail clockConst "t" = 1
  ∧ (getReport (run_all_tests healthAll PROXIES TEST_HOSTS outOneFail clockConst "t")).test_run.successful_tests
      = (getReport (run_all_tests healthAll PROXIES TEST_HOSTS outOneFail clockConst "t")).test_run.total_tests - 1 :=
  (report_success_count_and_exit healthAll PROXIES TEST_HOSTS outOneFail clockConst
    "t" (by decide)).2.2.1 (by decide)

/-- Witness for C5 at the declared tables: 12 entries, and entry 5 is the
squid profile against the second host. -/
theorem matrix_declaration_order_witness :
    (getReport (run_all_tests healthAll PROXIES TEST_HOSTS outAllOk clockConst "t")).results.length = 12
  ∧ (getReport (run_all_tests healthAll PROXIES TEST_HOSTS outAllOk clockConst "t")).results[5]?.map
      (fun e => e.proxy) = some ("squid")
  ∧ (getReport (run_all_tests healthAll PROXIES TEST_HOSTS outAllOk clockConst "t")).results[5]?.map
      (fun e => e.url) = some ("https://httpbin.org/get") := by
  have h := matrix_declaration_order healthAll PROXIES TEST_HOSTS outAllOk clockConst
    "t" (by decide)
  exact ⟨h.1, (h.2.1 5 (by decide)).1, (h.2.1 5 (by decide)).2⟩

/-- C6 counterexample.  In a run where issuing the first request raises, the
first persisted entry has no return_code and no stderr key (it carries error
instead), so not every results entry has the return_code field. -/
theorem results_entry_missing_return_code :
    (getReport (run_all_tests healthAll PROXIES TEST_HOSTS outRaise clockConst "t")).results[0]?.map
        (fun e => e.return_code) = some none
  ∧ (getReport (run_all_tests healthAll PROXIES TEST_HOSTS outRaise clockConst "t")).results[0]?.map
        (fun e => e.stderr) = some none
  ∧ (getReport (run_all_tests healthAll PROXIES TEST_HOSTS outRaise clockConst "t")).results[0]?.map
        (fun e => e.error) = some (some ("boom")) :=
  ⟨rfl, rfl, rfl⟩

/-- Witness for the amended C6 schema at a concrete raised entry of a
concrete run. -/
theorem results_entry_schema_witness :
    ((mkResult ("direct") ("http://httpbin.org/get") (ReqOutcome.raised ("boom"))
        ("2025-01-01T00:00:00")).error = none
      ∧ ((mkResult ("direct") ("http://httpbin.org/get") (ReqOutcome.raised ("boom"))
        ("2025-01-01T00:00:00")).return_code).isSome)
  ∨ (((mkResult ("direct") ("http://httpbin.org/get") (ReqOutcome.raised ("boom"))
        ("2025-01-01T00:00:00")).error).isSome
      ∧ (mkResult ("direct") ("http://httpbin.org/get") (ReqOutcome.raised ("boom"))
        ("2025-01-01T00:00:00")).return_code = none
      ∧ (mkResult ("direct") ("http://httpbin.org/get") (ReqOutcome.raised ("boom"))
        ("2025-01-01T00:00:00")).stderr = none
      ∧ (mkResult ("direct") ("http://httpbin.org/get") (ReqOutcome.raised ("boom"))
        ("2025-01-01T00:00:00")).success = false) :=
  results_entry_schema healthAll PROXIES TEST_HOSTS outRaise clockConst "t" (by decide)
    (mkResult ("direct") ("http://httpbin.org/get") (ReqOutcome.raised ("boom"))
      ("2025-01-01T00:00:00")) (by decide)
